import Mathlib

/-!
Shallow embedding of the purchase-request tracker (controle-compras):
the helpers layer (src/utils/helpers.js), the record repository
(SolicitacaoModel in the models file), the request handlers
(SolicitacaoController) and the error middleware.  JavaScript strings are
modelled via their character lists; the library functions trim,
toUpperCase, toLowerCase and replace are modelled faithfully for ASCII.
-/

namespace ControleCompras

/-- Whitespace characters removed by the JavaScript string trim method
(space, tab, line feed, carriage return, vertical tab, form feed,
no-break space). -/
def isJsSpace (c : Char) : Bool :=
  c == ' ' || c == '\t' || c == '\n' || c == '\r' ||
  c == '\x0b' || c == '\x0c' || c == '\u00A0'

/-- ASCII lower-case and upper-case letter pairs, used to model the
JavaScript toUpperCase and toLowerCase methods on the ASCII range. -/
def asciiCasePairs : List (Char × Char) :=
  [('a', 'A'), ('b', 'B'), ('c', 'C'), ('d', 'D'), ('e', 'E'), ('f', 'F'),
   ('g', 'G'), ('h', 'H'), ('i', 'I'), ('j', 'J'), ('k', 'K'), ('l', 'L'),
   ('m', 'M'), ('n', 'N'), ('o', 'O'), ('p', 'P'), ('q', 'Q'), ('r', 'R'),
   ('s', 'S'), ('t', 'T'), ('u', 'U'), ('v', 'V'), ('w', 'W'), ('x', 'X'),
   ('y', 'Y'), ('z', 'Z')]

/-- Model of the JavaScript toUpperCase method on a single character. -/
def jsToUpperChar (c : Char) : Char :=
  match asciiCasePairs.find? (fun p => p.1 == c) with
  | some p => p.2
  | none => c

/-- Model of the JavaScript toLowerCase method on a single character
(used to give ILIKE its case-insensitive meaning). -/
def jsToLowerChar (c : Char) : Char :=
  match asciiCasePairs.find? (fun p => p.2 == c) with
  | some p => p.1
  | none => c

/-- Drop the leading whitespace of a character list. -/
def trimLeftL (l : List Char) : List Char := l.dropWhile isJsSpace

/-- Drop the trailing whitespace of a character list. -/
def trimRightL (l : List Char) : List Char :=
  (l.reverse.dropWhile isJsSpace).reverse

/-- Model of the JavaScript trim method on character lists. -/
def jsTrimL (l : List Char) : List Char := trimRightL (trimLeftL l)

/-- Model of the JavaScript trim method on strings. -/
def jsTrim (s : String) : String := ⟨jsTrimL s.data⟩

/-- Character-list form of the angle-bracket stripping regular expression
replace of sanitizeInput. -/
def stripAnglesL (l : List Char) : List Char :=
  l.filter (fun c => !(c == '<' || c == '>'))

/-- Model of helpers.sanitizeInput on a string: trim, then remove every
angle bracket. -/
def sanitizeInput (s : String) : String := ⟨stripAnglesL (jsTrimL s.data)⟩

/-- Model of helpers.normalizeString: trim, then upper-case. -/
def normalizeString (s : String) : String :=
  ⟨(jsTrimL s.data).map jsToUpperChar⟩

/-- Whether the first list is an initial segment of the second. -/
def leadsList : List Char → List Char → Bool
  | [], _ => true
  | _ :: _, [] => false
  | a :: as, b :: bs => a == b && leadsList as bs

/-- Whether the pattern occurs as a contiguous segment of the list. -/
def containsSeg (pat : List Char) : List Char → Bool
  | [] => leadsList pat []
  | c :: rest => leadsList pat (c :: rest) || containsSeg pat rest

/-- Case-insensitive substring test modelling the SQL predicate
column ILIKE concat crumbs of a percent-wrapped bound parameter. -/
def ilikeContains (hay : String) (needle : String) : Bool :=
  containsSeg (needle.data.map jsToLowerChar) (hay.data.map jsToLowerChar)

/-- JavaScript truthiness of a string: false exactly on the empty string. -/
def strTruthy (s : String) : Bool := !(s == "")

/-- JavaScript truthiness of a possibly-undefined string. -/
def optTruthy (o : Option String) : Bool :=
  match o with
  | some s => strTruthy s
  | none => false

/-- Model of the JavaScript expression (v or-else d) on numbers parsed by
parseInt: the default d is taken when the value is absent or NaN
(modelled as none) and when it is 0, since 0 is falsy. -/
def jsOrInt (v : Option Int) (d : Int) : Int :=
  match v with
  | some n => if n = 0 then d else n
  | none => d

/-- Model of the JavaScript expression (s or-else d) on strings: the
default is taken when the string is absent or empty. -/
def jsOrStr (v : Option String) (d : String) : String :=
  match v with
  | some s => if s == "" then d else s
  | none => d

/-- Model of Math.ceil on the quotient of two natural numbers, as used
for the total-pages computation. -/
def jsCeilDiv (t l : Nat) : Nat := (t + l - 1) / l

/-- Model of Math.round on a rational input: floor of the input plus one
half (JavaScript rounds half towards positive infinity). -/
def jsMathRound (x : ℚ) : ℤ := ⌊x + 1 / 2⌋

/-- One row of the solicitacoes table.  Timestamps are modelled as
integers. -/
structure Solicitacao where
  id : Nat
  nome_pessoa : String
  setor : String
  centro_custo : String
  equipamento : String
  data_solicitacao : Int
  status : String
  created_at : Int
  updated_at : Int
deriving Repr, DecidableEq

/-- The relational store: the table rows plus the next SERIAL value. -/
structure DB where
  rows : List Solicitacao
  nextId : Nat
deriving Repr, DecidableEq

/-- The optional filters record accepted by getAll and count.  A missing
field is undefined; the model checks JavaScript truthiness exactly where
the source does. -/
structure Filters where
  status : Option String := none
  setor : Option String := none
  search : Option String := none
deriving Repr, DecidableEq

/-- A thrown JavaScript error as seen by the error middleware: its
message, its optional driver code and its optional statusCode property. -/
structure JsError where
  message : String
  code : Option String := none
  statusCode : Option Nat := none
deriving Repr, DecidableEq

/-- The WHERE conditions built by SolicitacaoModel.getAll, as row
predicates, one per truthy filter field, in source order.  The search
condition reuses the one bound parameter on both sides of the OR. -/
def getAllCondList (f : Filters) : List (Solicitacao → Bool) :=
  (if optTruthy f.status then
    [fun r => r.status == f.status.getD ""] else []) ++
  (if optTruthy f.setor then
    [fun r => r.setor == f.setor.getD ""] else []) ++
  (if optTruthy f.search then
    [fun r => ilikeContains r.nome_pessoa (f.search.getD "") ||
              ilikeContains r.equipamento (f.search.getD "")] else [])

/-- The WHERE conditions built by SolicitacaoModel.count; the source
duplicates the construction of getAll, so the model does too. -/
def countCondList (f : Filters) : List (Solicitacao → Bool) :=
  (if optTruthy f.status then
    [fun r => r.status == f.status.getD ""] else []) ++
  (if optTruthy f.setor then
    [fun r => r.setor == f.setor.getD ""] else []) ++
  (if optTruthy f.search then
    [fun r => ilikeContains r.nome_pessoa (f.search.getD "") ||
              ilikeContains r.equipamento (f.search.getD "")] else [])

/-- A row satisfies a condition list when every condition holds: the
source joins the conditions with AND. -/
def rowMatches (cs : List (Solicitacao → Bool)) (r : Solicitacao) : Bool :=
  cs.all (fun c => c r)

/-- Model of SolicitacaoModel.getAll.  The raw ORDER BY clause is
abstracted by the relation ord that it induces on rows; LIMIT and OFFSET
are applied only when the limit argument is truthy, mirroring the
source. -/
def SolicitacaoModel.getAll (db : DB) (f : Filters)
    (ord : Solicitacao → Solicitacao → Prop) [DecidableRel ord]
    (limit : Option Nat) (offset : Nat) : List Solicitacao :=
  let m := (db.rows.filter (rowMatches (getAllCondList f))).insertionSort ord
  match limit with
  | some l => if l ≠ 0 then (m.drop offset).take l else m
  | none => m

/-- Model of SolicitacaoModel.getById: the first row with the given id,
or none. -/
def SolicitacaoModel.getById (db : DB) (id : Nat) : Option Solicitacao :=
  db.rows.find? (fun r => r.id == id)

/-- Model of SolicitacaoModel.count. -/
def SolicitacaoModel.count (db : DB) (f : Filters) : Nat :=
  (db.rows.filter (rowMatches (countCondList f))).length

/-- The partial update payload: a field is written only when it is
defined, mirroring the undefined checks over the five allowed fields. -/
structure UpdateData where
  nome_pessoa : Option String := none
  setor : Option String := none
  centro_custo : Option String := none
  equipamento : Option String := none
  status : Option String := none
deriving Repr, DecidableEq

/-- How many of the five allowed fields the payload defines. -/
def definedFieldCount (d : UpdateData) : Nat :=
  (if d.nome_pessoa.isSome then 1 else 0) +
  (if d.setor.isSome then 1 else 0) +
  (if d.centro_custo.isSome then 1 else 0) +
  (if d.equipamento.isSome then 1 else 0) +
  (if d.status.isSome then 1 else 0)

/-- The effect of the UPDATE statement on one matched row: every defined
field is written, and updated_at is always set to now. -/
def applyUpdateFields (r : Solicitacao) (d : UpdateData) (now : Int) :
    Solicitacao :=
  { r with
    nome_pessoa := d.nome_pessoa.getD r.nome_pessoa
    setor := d.setor.getD r.setor
    centro_custo := d.centro_custo.getD r.centro_custo
    equipamento := d.equipamento.getD r.equipamento
    status := d.status.getD r.status
    updated_at := now }

/-- Model of SolicitacaoModel.update.  With no recognized field it throws;
with zero affected rows it throws the wrapped not-found message; both
errors are plain Error objects without code or statusCode. -/
def SolicitacaoModel.update (db : DB) (id : Nat) (d : UpdateData)
    (now : Int) : Except JsError DB :=
  if definedFieldCount d = 0 then
    .error { message :=
      "Erro ao atualizar solicitação: Nenhum campo para atualizar foi fornecido" }
  else if (db.rows.filter (fun r => r.id == id)).length > 0 then
    let newRows :=
      db.rows.map (fun r => if r.id == id then applyUpdateFields r d now else r)
    .ok { db with rows := newRows }
  else
    .error { message :=
      "Erro ao atualizar solicitação: Solicitação não encontrada ou nenhuma alteração foi feita" }

/-- Model of SolicitacaoModel.updateStatus: delegates to update with a
payload defining only the status field. -/
def SolicitacaoModel.updateStatus (db : DB) (id : Nat) (status : String)
    (now : Int) : Except JsError DB :=
  SolicitacaoModel.update db id { status := some status } now

/-- Model of SolicitacaoModel.delete: hard delete; with zero affected
rows it throws a plain Error without code or statusCode. -/
def SolicitacaoModel.delete (db : DB) (id : Nat) : Except JsError DB :=
  if (db.rows.filter (fun r => r.id == id)).length > 0 then
    .ok { db with rows := db.rows.filter (fun r => !(r.id == id)) }
  else
    .error { message := "Erro ao excluir solicitação do banco de dados" }

/-- The four valid status literals. -/
def statusValidos : List String :=
  ["Pendente", "Em Andamento", "Comprado", "Cancelado"]

/-- The check the source applies to a required field: the value is falsy
or its trim is empty.  An undefined value is falsy. -/
def fieldMissing (o : Option String) : Bool :=
  match o with
  | some s => s == "" || jsTrim s == ""
  | none => true

/-- The data record inspected by SolicitacaoModel.validateData: the four
text fields plus status, each possibly undefined. -/
structure VData where
  nome_pessoa : Option String := none
  setor : Option String := none
  centro_custo : Option String := none
  equipamento : Option String := none
  status : Option String := none
deriving Repr, DecidableEq

/-- Model of SolicitacaoModel.validateData: collects every violation, in
source order, into one list of messages. -/
def SolicitacaoModel.validateData (d : VData) (isUpdate : Bool) :
    List String :=
  (if !isUpdate then
    (if fieldMissing d.nome_pessoa then
      ["O campo \x27nome_pessoa\x27 é obrigatório"] else []) ++
    (if fieldMissing d.setor then
      ["O campo \x27setor\x27 é obrigatório"] else []) ++
    (if fieldMissing d.centro_custo then
      ["O campo \x27centro_custo\x27 é obrigatório"] else []) ++
    (if fieldMissing d.equipamento then
      ["O campo \x27equipamento\x27 é obrigatório"] else [])
  else
    (if d.nome_pessoa.isSome && fieldMissing d.nome_pessoa then
      ["Nome da pessoa não pode estar vazio"] else []) ++
    (if d.setor.isSome && fieldMissing d.setor then
      ["Setor não pode estar vazio"] else []) ++
    (if d.centro_custo.isSome && fieldMissing d.centro_custo then
      ["Centro de custo não pode estar vazio"] else []) ++
    (if d.equipamento.isSome && fieldMissing d.equipamento then
      ["Equipamento não pode estar vazio"] else [])) ++
  (if optTruthy d.status &&
      !(statusValidos.contains (d.status.getD "")) then
    ["Status inválido"] else []) ++
  (if optTruthy d.nome_pessoa &&
      (d.nome_pessoa.getD "").length > 255 then
    ["Nome da pessoa deve ter no máximo 255 caracteres"] else []) ++
  (if optTruthy d.setor && (d.setor.getD "").length > 100 then
    ["Setor deve ter no máximo 100 caracteres"] else []) ++
  (if optTruthy d.centro_custo &&
      (d.centro_custo.getD "").length > 50 then
    ["Centro de custo deve ter no máximo 50 caracteres"] else [])

/-- A request body for create or update: the five text fields plus the
optional request timestamp. -/
structure Body where
  nome_pessoa : Option String := none
  setor : Option String := none
  centro_custo : Option String := none
  equipamento : Option String := none
  status : Option String := none
  data_solicitacao : Option Int := none
deriving Repr, DecidableEq

/-- Model of the controller call sanitizeInput on the request body:
every string field is trimmed and stripped of angle brackets. -/
def sanitizeBody (b : Body) : Body :=
  { b with
    nome_pessoa := b.nome_pessoa.map sanitizeInput
    setor := b.setor.map sanitizeInput
    centro_custo := b.centro_custo.map sanitizeInput
    equipamento := b.equipamento.map sanitizeInput
    status := b.status.map sanitizeInput }

/-- The conditional reassignment the controllers perform on one field:
only a truthy value is normalized. -/
def normalizeIfTruthy (o : Option String) : Option String :=
  match o with
  | some s => if s == "" then some s else some (normalizeString s)
  | none => none

/-- Model of the normalization step of the controllers: the four text
fields are upper-cased when truthy; status is left untouched. -/
def normalizeFields (b : Body) : Body :=
  { b with
    nome_pessoa := normalizeIfTruthy b.nome_pessoa
    setor := normalizeIfTruthy b.setor
    centro_custo := normalizeIfTruthy b.centro_custo
    equipamento := normalizeIfTruthy b.equipamento }

/-- The body as seen by validateData. -/
def toVData (b : Body) : VData :=
  { nome_pessoa := b.nome_pessoa, setor := b.setor,
    centro_custo := b.centro_custo, equipamento := b.equipamento,
    status := b.status }

/-- The body as seen by SolicitacaoModel.update. -/
def toUpdateData (b : Body) : UpdateData :=
  { nome_pessoa := b.nome_pessoa, setor := b.setor,
    centro_custo := b.centro_custo, equipamento := b.equipamento,
    status := b.status }

/-- The create and update pipeline shared by the controllers: sanitize
the body, then normalize the truthy text fields. -/
def processBody (b : Body) : Body := normalizeFields (sanitizeBody b)

/-- Model of SolicitacaoModel.create.  It re-checks the required fields
(throwing on the first missing one), trims the four text fields, applies
the status and timestamp defaults and inserts one row returning the
generated id. -/
def SolicitacaoModel.create (db : DB) (d : Body) (now : Int) :
    Except JsError (Nat × DB) :=
  if fieldMissing d.nome_pessoa then
    .error { message :=
      "Erro ao salvar solicitação: Campo obrigatório não informado: nome_pessoa" }
  else if fieldMissing d.setor then
    .error { message :=
      "Erro ao salvar solicitação: Campo obrigatório não informado: setor" }
  else if fieldMissing d.centro_custo then
    .error { message :=
      "Erro ao salvar solicitação: Campo obrigatório não informado: centro_custo" }
  else if fieldMissing d.equipamento then
    .error { message :=
      "Erro ao salvar solicitação: Campo obrigatório não informado: equipamento" }
  else
    let row : Solicitacao :=
      { id := db.nextId
        nome_pessoa := jsTrim (d.nome_pessoa.getD "")
        setor := jsTrim (d.setor.getD "")
        centro_custo := jsTrim (d.centro_custo.getD "")
        equipamento := jsTrim (d.equipamento.getD "")
        data_solicitacao := d.data_solicitacao.getD now
        status := jsOrStr d.status "Pendente"
        created_at := now
        updated_at := now }
    .ok (db.nextId, { rows := db.rows ++ [row], nextId := db.nextId + 1 })

/-- Model of the error middleware status mapping: unique violations give
409, connection failures give 503 and everything else falls back to the
statusCode property of the error, defaulting to 500. -/
def errorHandlerStatus (e : JsError) : Nat :=
  if e.code == some "23505" then 409
  else if e.code == some "ECONNREFUSED" || e.code == some "ENOTFOUND" then 503
  else e.statusCode.getD 500

/-- A uniform view of the HTTP responses the controllers produce: the
status code, the validation error list and the created id when any. -/
structure ApiResponse where
  status : Nat
  errors : List String := []
  idOut : Option Nat := none
deriving Repr, DecidableEq

/-- The pagination object of the list response. -/
structure Pagination where
  current_page : Nat
  total_pages : Nat
  total_items : Nat
  items_per_page : Nat
  has_previous : Bool
  has_next : Bool
deriving Repr, DecidableEq

/-- The list response: the envelope status, the page of rows and the
pagination object. -/
structure ListResponse where
  status : Nat
  solicitacoes : List Solicitacao
  pagination : Pagination
deriving Repr, DecidableEq

/-- The effective page of the list handler, from the parsed page query
parameter: Math.max(1, parseInt(page) or-else 1).  The value is at least
1, so the cast to Nat is faithful. -/
def SolicitacaoController.currentPageOf (page : Option Int) : Nat :=
  (max 1 (jsOrInt page 1)).toNat

/-- The effective limit of the list handler:
Math.min(100, Math.max(1, parseInt(limit) or-else 10)). -/
def SolicitacaoController.itemsPerPageOf (limit : Option Int) : Nat :=
  (min 100 (max 1 (jsOrInt limit 10))).toNat

/-- The offset the list handler passes to the repository:
(currentPage - 1) * itemsPerPage. -/
def SolicitacaoController.offsetOf (page limit : Option Int) : Nat :=
  (SolicitacaoController.currentPageOf page - 1) *
    SolicitacaoController.itemsPerPageOf limit

/-- The filters record the list handler builds from its query
parameters: each field is set only when truthy, after sanitization. -/
def SolicitacaoController.mkFilters (search status setor : Option String) :
    Filters :=
  { search := if optTruthy search then some (sanitizeInput (search.getD ""))
      else none
    status := if optTruthy status then some (sanitizeInput (status.getD ""))
      else none
    setor := if optTruthy setor then some (sanitizeInput (setor.getD ""))
      else none }

/-- Model of SolicitacaoController.getAll: builds the filters and the
pagination arithmetic, queries the repository for the page of rows and
the total count and shapes the success envelope. -/
def SolicitacaoController.getAll (db : DB)
    (search status setor : Option String) (page limit : Option Int)
    (ord : Solicitacao → Solicitacao → Prop) [DecidableRel ord] :
    ListResponse :=
  let f := SolicitacaoController.mkFilters search status setor
  let currentPage := SolicitacaoController.currentPageOf page
  let itemsPerPage := SolicitacaoController.itemsPerPageOf limit
  let offset := SolicitacaoController.offsetOf page limit
  let solicitacoes := SolicitacaoModel.getAll db f ord (some itemsPerPage) offset
  let totalItems := SolicitacaoModel.count db f
  let totalPages := jsCeilDiv totalItems itemsPerPage
  { status := 200
    solicitacoes := solicitacoes
    pagination :=
      { current_page := currentPage
        total_pages := totalPages
        total_items := totalItems
        items_per_page := itemsPerPage
        has_previous := decide (currentPage > 1)
        has_next := decide (currentPage < totalPages) } }

/-- Model of SolicitacaoController.create: sanitize, normalize, validate
with the full list of violations, then insert; thrown errors reach the
error middleware. -/
def SolicitacaoController.create (db : DB) (body : Body) (now : Int) :
    ApiResponse × DB :=
  let data := processBody body
  let errors := SolicitacaoModel.validateData (toVData data) false
  if errors.length > 0 then
    ({ status := 400, errors := errors }, db)
  else
    match SolicitacaoModel.create db data now with
    | .ok (id, db2) => ({ status := 201, idOut := some id }, db2)
    | .error e =>
      ({ status := errorHandlerStatus e, errors := [e.message] }, db)

/-- Model of SolicitacaoController.update.  The existence pre-check and
the mutating statement are two separate store round trips, so each sees
its own snapshot of the store: dbCheck at the pre-check and dbMut at the
UPDATE.  Thrown repository errors reach the error middleware. -/
def SolicitacaoController.update (dbCheck dbMut : DB) (id : Nat)
    (body : Body) (now : Int) : ApiResponse :=
  match SolicitacaoModel.getById dbCheck id with
  | none => { status := 404, errors := ["Solicitação não encontrada"] }
  | some _ =>
    let data := processBody body
    let errors := SolicitacaoModel.validateData (toVData data) true
    if errors.length > 0 then
      { status := 400, errors := errors }
    else
      match SolicitacaoModel.update dbMut id (toUpdateData data) now with
      | .ok _ => { status := 200 }
      | .error e =>
        { status := errorHandlerStatus e, errors := [e.message] }

/-- Model of SolicitacaoController.delete, with the same two-snapshot
treatment of the pre-check and the DELETE statement. -/
def SolicitacaoController.delete (dbCheck dbMut : DB) (id : Nat) :
    ApiResponse :=
  match SolicitacaoModel.getById dbCheck id with
  | none => { status := 404, errors := ["Solicitação não encontrada"] }
  | some _ =>
    match SolicitacaoModel.delete dbMut id with
    | .ok _ => { status := 200 }
    | .error e =>
      { status := errorHandlerStatus e, errors := [e.message] }

/-- One row of the status breakdown: a status value and how many rows
carry it. -/
structure StatRow where
  status : String
  quantidade : Nat
deriving Repr, DecidableEq

/-- The descending-count order of the stats query. -/
def statDescOrder (a b : StatRow) : Prop := b.quantidade ≤ a.quantidade

instance : DecidableRel statDescOrder := fun a b =>
  inferInstanceAs (Decidable (b.quantidade ≤ a.quantidade))

instance : IsTotal StatRow statDescOrder :=
  ⟨fun a b => Nat.le_total b.quantidade a.quantidade⟩

instance : IsTrans StatRow statDescOrder :=
  ⟨fun _ _ _ h1 h2 => Nat.le_trans h2 h1⟩

/-- Model of SolicitacaoModel.getStats: one row per distinct status value
present in the table with its count, ordered by count descending. -/
def SolicitacaoModel.getStats (db : DB) : List StatRow :=
  let keys := (db.rows.map (fun r => r.status)).dedup
  let grouped := keys.map (fun s =>
    { status := s,
      quantidade := (db.rows.filter (fun r => r.status == s)).length : StatRow })
  grouped.insertionSort statDescOrder

/-- One row of the stats response, with the derived percentage. -/
structure StatOut where
  status : String
  quantidade : Nat
  percentual : ℤ
deriving Repr, DecidableEq

/-- Model of SolicitacaoController.getStats: sums the counts into the
grand total and derives each percentage with Math.round, or 0 when the
total is 0. -/
def SolicitacaoController.getStats (db : DB) : List StatOut × Nat :=
  let stats := SolicitacaoModel.getStats db
  let total : Nat := (stats.map (fun st => st.quantidade)).sum
  let outs := stats.map (fun st =>
    ({ status := st.status
       quantidade := st.quantidade
       percentual := if 0 < total then
           jsMathRound (((st.quantidade : ℚ) / (total : ℚ)) * 100)
         else 0 } : StatOut))
  (outs, total)

/-- A bound query parameter: a string value or a numeric value. -/
inductive SqlParam where
  | s (v : String)
  | n (v : Nat)
deriving Repr, DecidableEq

/-- The accumulator of the WHERE building loops of getAll and count: the
condition fragments, the bound parameters and the next placeholder
index. -/
structure BuildAcc where
  conds : List String
  params : List SqlParam
  idx : Nat
deriving Repr, DecidableEq

/-- The condition builder of SolicitacaoModel.getAll: pushes one
fragment and one bound parameter per truthy filter field, with the
search fragment reusing a single placeholder on both sides of the OR. -/
def buildGetAllConds (f : Filters) : BuildAcc :=
  let a0 : BuildAcc := ⟨[], [], 1⟩
  let a1 := if optTruthy f.status then
      (⟨a0.conds ++ ["status = $" ++ toString a0.idx],
        a0.params ++ [.s (f.status.getD "")], a0.idx + 1⟩ : BuildAcc)
    else a0
  let a2 := if optTruthy f.setor then
      (⟨a1.conds ++ ["setor = $" ++ toString a1.idx],
        a1.params ++ [.s (f.setor.getD "")], a1.idx + 1⟩ : BuildAcc)
    else a1
  let a3 := if optTruthy f.search then
      (⟨a2.conds ++ ["(nome_pessoa ILIKE $" ++ toString a2.idx ++
          " OR equipamento ILIKE $" ++ toString a2.idx ++ ")"],
        a2.params ++ [.s ("%" ++ f.search.getD "" ++ "%")], a2.idx + 1⟩ :
        BuildAcc)
    else a2
  a3

/-- The condition builder of SolicitacaoModel.count; the source
duplicates the loop of getAll verbatim, so the model does too. -/
def buildCountConds (f : Filters) : BuildAcc :=
  let a0 : BuildAcc := ⟨[], [], 1⟩
  let a1 := if optTruthy f.status then
      (⟨a0.conds ++ ["status = $" ++ toString a0.idx],
        a0.params ++ [.s (f.status.getD "")], a0.idx + 1⟩ : BuildAcc)
    else a0
  let a2 := if optTruthy f.setor then
      (⟨a1.conds ++ ["setor = $" ++ toString a1.idx],
        a1.params ++ [.s (f.setor.getD "")], a1.idx + 1⟩ : BuildAcc)
    else a1
  let a3 := if optTruthy f.search then
      (⟨a2.conds ++ ["(nome_pessoa ILIKE $" ++ toString a2.idx ++
          " OR equipamento ILIKE $" ++ toString a2.idx ++ ")"],
        a2.params ++ [.s ("%" ++ f.search.getD "" ++ "%")], a2.idx + 1⟩ :
        BuildAcc)
    else a2
  a3

/-- The SQL text and bound parameters of SolicitacaoModel.getAll: base
query, optional WHERE clause, the ORDER BY clause concatenated from the
raw orderBy argument, and the LIMIT and OFFSET placeholders when a
truthy limit is supplied. -/
def SolicitacaoModel.getAllQuery (f : Filters) (orderBy : String)
    (limit : Option Nat) (offset : Nat) : String × List SqlParam :=
  let a := buildGetAllConds f
  let sql := "SELECT * FROM solicitacoes" ++
    (if a.conds.length > 0 then
      " WHERE " ++ String.intercalate " AND " a.conds else "")
  let sql := sql ++ " ORDER BY " ++ orderBy
  match limit with
  | some l =>
    if l ≠ 0 then
      (sql ++ " LIMIT $" ++ toString a.idx ++
        " OFFSET $" ++ toString (a.idx + 1),
        a.params ++ [.n l, .n offset])
    else (sql, a.params)
  | none => (sql, a.params)

/-- The SQL text and bound parameters of SolicitacaoModel.count: no
ordering clause is ever appended. -/
def SolicitacaoModel.countQuery (f : Filters) : String × List SqlParam :=
  let a := buildCountConds f
  ("SELECT COUNT(*) as total FROM solicitacoes" ++
    (if a.conds.length > 0 then
      " WHERE " ++ String.intercalate " AND " a.conds else ""),
    a.params)

/-- The part of the getAll SQL text before the ORDER BY clause, used to
state where the raw orderBy argument lands.  It does not depend on the
orderBy argument. -/
def getAllSqlBeforeOrder (f : Filters) : String :=
  let a := buildGetAllConds f
  "SELECT * FROM solicitacoes" ++
    (if a.conds.length > 0 then
      " WHERE " ++ String.intercalate " AND " a.conds else "")

/-- The part of the getAll SQL text after the ORDER BY clause.  It does
not depend on the orderBy argument. -/
def getAllSqlAfterOrder (f : Filters) (limit : Option Nat) : String :=
  let a := buildGetAllConds f
  match limit with
  | some l =>
    if l ≠ 0 then
      " LIMIT $" ++ toString a.idx ++ " OFFSET $" ++ toString (a.idx + 1)
    else ""
  | none => ""

/-- The bound parameters of the getAll query, defined without any
reference to the orderBy argument. -/
def getAllParamsOnly (f : Filters) (limit : Option Nat) (offset : Nat) :
    List SqlParam :=
  let a := buildGetAllConds f
  match limit with
  | some l => if l ≠ 0 then a.params ++ [.n l, .n offset] else a.params
  | none => a.params

/-- The orderBy query parameter of the list handler, with its
destructuring default for an absent value. -/
def SolicitacaoController.orderByParam (q : Option String) : String :=
  q.getD "data_solicitacao DESC"

/-! ### String lemmas -/

/-- Dropping a prefix while a predicate holds is idempotent. -/
theorem dropWhile_idem (p : Char → Bool) (l : List Char) :
    (l.dropWhile p).dropWhile p = l.dropWhile p := by
  induction l with
  | nil => rfl
  | cons a t ih =>
    by_cases h : p a = true
    · simp [List.dropWhile_cons, h, ih]
    · simp [List.dropWhile_cons, h]

/-- A left-trim-stable list stays left-trim-stable on any prefix. -/
theorem dropWhile_eq_self_of_leads (p : Char → Bool)
    {l₁ l₂ : List Char} (hpre : l₁ <+: l₂)
    (h : l₂.dropWhile p = l₂) : l₁.dropWhile p = l₁ := by
  cases l₁ with
  | nil => rfl
  | cons a t =>
    obtain ⟨rest, hrest⟩ := hpre
    subst hrest
    rw [List.cons_append] at h
    by_cases ha : p a = true
    · exfalso
      rw [List.dropWhile_cons, if_pos ha] at h
      have hlen := (List.dropWhile_sublist p (l := t ++ rest)).length_le
      rw [h] at hlen
      simp at hlen
    · rw [List.dropWhile_cons, if_neg ha]

/-- The characters of a trimmed list are characters of the list. -/
theorem mem_of_mem_jsTrimL {c : Char} {l : List Char}
    (h : c ∈ jsTrimL l) : c ∈ l := by
  unfold jsTrimL trimRightL trimLeftL at h
  rw [List.mem_reverse] at h
  have h1 : c ∈ (l.dropWhile isJsSpace).reverse :=
    (List.dropWhile_sublist isJsSpace).mem h
  rw [List.mem_reverse] at h1
  exact (List.dropWhile_sublist isJsSpace).mem h1

/-- Left trimming is idempotent. -/
theorem trimLeftL_idem (l : List Char) :
    trimLeftL (trimLeftL l) = trimLeftL l :=
  dropWhile_idem isJsSpace l

/-- Right trimming is idempotent. -/
theorem trimRightL_idem (l : List Char) :
    trimRightL (trimRightL l) = trimRightL l := by
  unfold trimRightL
  rw [List.reverse_reverse, dropWhile_idem]

/-- The right trim of a list is one of its prefixes. -/
theorem trimRightL_leads (l : List Char) : trimRightL l <+: l := by
  unfold trimRightL
  have h := List.dropWhile_suffix (l := l.reverse) isJsSpace
  obtain ⟨rest, hrest⟩ := h
  refine ⟨rest.reverse, ?_⟩
  have := congrArg List.reverse hrest
  rw [List.reverse_append, List.reverse_reverse] at this
  exact this

/-- The full trim is idempotent. -/
theorem jsTrimL_idem (l : List Char) : jsTrimL (jsTrimL l) = jsTrimL l := by
  unfold jsTrimL
  have h1 : trimLeftL (trimRightL (trimLeftL l)) = trimRightL (trimLeftL l) :=
    dropWhile_eq_self_of_leads isJsSpace (trimRightL_leads (trimLeftL l))
      (trimLeftL_idem l)
  rw [h1, trimRightL_idem]

/-- Left trimming commutes with mapping a space-ness preserving
function. -/
theorem trimLeftL_map (f : Char → Char)
    (hf : ∀ c, isJsSpace (f c) = isJsSpace c) (l : List Char) :
    trimLeftL (l.map f) = (trimLeftL l).map f := by
  unfold trimLeftL
  rw [List.dropWhile_map]
  have hfe : (isJsSpace ∘ f) = isJsSpace := funext hf
  rw [hfe]

/-- Right trimming commutes with mapping a space-ness preserving
function. -/
theorem trimRightL_map (f : Char → Char)
    (hf : ∀ c, isJsSpace (f c) = isJsSpace c) (l : List Char) :
    trimRightL (l.map f) = (trimRightL l).map f := by
  unfold trimRightL
  rw [← List.map_reverse, List.dropWhile_map, List.map_reverse]
  have hfe : (isJsSpace ∘ f) = isJsSpace := funext hf
  rw [hfe]

/-- Trimming commutes with mapping a space-ness preserving function. -/
theorem jsTrimL_map (f : Char → Char)
    (hf : ∀ c, isJsSpace (f c) = isJsSpace c) (l : List Char) :
    jsTrimL (l.map f) = (jsTrimL l).map f := by
  unfold jsTrimL
  rw [trimLeftL_map f hf, trimRightL_map f hf]

/-- The ASCII upper-casing of a character either leaves it unchanged or
returns one of the twenty-six upper-case letters. -/
theorem jsToUpperChar_cases (c : Char) :
    jsToUpperChar c = c ∨ jsToUpperChar c ∈ asciiCasePairs.map Prod.snd := by
  unfold jsToUpperChar
  cases h : asciiCasePairs.find? (fun p => p.1 == c) with
  | none => exact Or.inl rfl
  | some p =>
    exact Or.inr (List.mem_map.mpr ⟨p, List.mem_of_find?_eq_some h, rfl⟩)

/-- Upper-casing preserves space-ness. -/
theorem isJsSpace_jsToUpperChar (c : Char) :
    isJsSpace (jsToUpperChar c) = isJsSpace c := by
  unfold jsToUpperChar
  cases h : asciiCasePairs.find? (fun p => p.1 == c) with
  | none => rfl
  | some p =>
    have hmem := List.mem_of_find?_eq_some h
    have hpred := List.find?_some h
    have hc : p.1 = c := by simpa using hpred
    have hface : ∀ q ∈ asciiCasePairs,
        isJsSpace q.1 = false ∧ isJsSpace q.2 = false := by decide
    rw [(hface p hmem).2, ← hc, (hface p hmem).1]

/-- Upper-casing is idempotent on characters. -/
theorem jsToUpperChar_idem (c : Char) :
    jsToUpperChar (jsToUpperChar c) = jsToUpperChar c := by
  unfold jsToUpperChar
  cases h : asciiCasePairs.find? (fun p => p.1 == c) with
  | none => simp [h]
  | some p =>
    have hmem := List.mem_of_find?_eq_some h
    have hnone : asciiCasePairs.find? (fun q => q.1 == p.2) = none := by
      rw [List.find?_eq_none]
      intro q hq
      have h2 : ∀ r ∈ asciiCasePairs, ∀ q ∈ asciiCasePairs,
          (q.1 == r.2) = false := by decide
      simpa using h2 p hmem q hq
    simp [hnone]

/-- Upper-casing cannot produce an angle bracket from a character that is
not one. -/
theorem jsToUpperChar_ne_angle {c : Char} (h1 : c ≠ '<') (h2 : c ≠ '>') :
    jsToUpperChar c ≠ '<' ∧ jsToUpperChar c ≠ '>' := by
  rcases jsToUpperChar_cases c with h | h
  · rw [h]; exact ⟨h1, h2⟩
  · constructor <;> intro he <;> rw [he] at h <;> revert h <;> decide

/-- The characters surviving sanitizeInput are never angle brackets. -/
theorem mem_stripAnglesL {c : Char} {l : List Char}
    (h : c ∈ stripAnglesL l) : c ≠ '<' ∧ c ≠ '>' := by
  unfold stripAnglesL at h
  have := List.of_mem_filter h
  constructor <;> intro he <;> rw [he] at this <;> revert this <;> decide

/-- C10: the stored form of every text field, normalizeString after
sanitizeInput, contains no angle bracket, carries no leading or trailing
whitespace (it is a fixed point of trim), and is a fixed point of
normalizeString. -/
theorem c10_stored_text_invariant (s : String) :
    (∀ c ∈ (normalizeString (sanitizeInput s)).data, c ≠ '<' ∧ c ≠ '>') ∧
    jsTrim (normalizeString (sanitizeInput s)) =
      normalizeString (sanitizeInput s) ∧
    normalizeString (normalizeString (sanitizeInput s)) =
      normalizeString (sanitizeInput s) := by
  have hdata : (normalizeString (sanitizeInput s)).data =
      (jsTrimL (stripAnglesL (jsTrimL s.data))).map jsToUpperChar := rfl
  have htrim : jsTrimL ((jsTrimL (stripAnglesL (jsTrimL s.data))).map
      jsToUpperChar) =
      (jsTrimL (stripAnglesL (jsTrimL s.data))).map jsToUpperChar := by
    rw [← jsTrimL_map jsToUpperChar isJsSpace_jsToUpperChar, jsTrimL_idem,
      jsTrimL_map jsToUpperChar isJsSpace_jsToUpperChar]
  refine ⟨?_, ?_, ?_⟩
  · intro c hc
    rw [hdata] at hc
    obtain ⟨c0, hc0, hup⟩ := List.mem_map.mp hc
    have hang := mem_stripAnglesL (mem_of_mem_jsTrimL hc0)
    rw [← hup]
    exact jsToUpperChar_ne_angle hang.1 hang.2
  · show String.mk (jsTrimL (normalizeString (sanitizeInput s)).data) = _
    rw [hdata, htrim]
    exact congrArg String.mk hdata.symm
  · show String.mk ((jsTrimL (normalizeString (sanitizeInput s)).data).map
      jsToUpperChar) = _
    rw [hdata, htrim, List.map_map]
    have hcomp : (jsToUpperChar ∘ jsToUpperChar) = jsToUpperChar :=
      funext jsToUpperChar_idem
    rw [hcomp]
    exact congrArg String.mk hdata.symm

/-- Witness for C10 at a concrete input carrying angle brackets and
outer whitespace. -/
theorem c10_stored_text_invariant_witness :
    ('N' ≠ '<' ∧ 'N' ≠ '>') ∧
    jsTrim (normalizeString (sanitizeInput " Notebook <i> ")) =
      normalizeString (sanitizeInput " Notebook <i> ") ∧
    normalizeString (normalizeString (sanitizeInput " Notebook <i> ")) =
      normalizeString (sanitizeInput " Notebook <i> ") :=
  ⟨(c10_stored_text_invariant " Notebook <i> ").1 'N' (by decide),
   (c10_stored_text_invariant " Notebook <i> ").2.1,
   (c10_stored_text_invariant " Notebook <i> ").2.2⟩

/-! ### Filtering and counting -/

/-- The predicate built by count coincides with the predicate built by
getAll: the source duplicates the same construction in both. -/
theorem countCondList_eq_getAllCondList (f : Filters) :
    countCondList f = getAllCondList f := rfl

/-- Filtered rows counted by count and listed by an unlimited getAll. -/
theorem count_eq_filter_length (db : DB) (f : Filters) :
    SolicitacaoModel.count db f =
      (db.rows.filter (rowMatches (getAllCondList f))).length := by
  unfold SolicitacaoModel.count
  rw [countCondList_eq_getAllCondList]

/-- C5: for every filters record, count returns exactly the number of
rows an unlimited getAll returns under the same filters, whatever
ordering the raw ORDER BY clause induces: both build the same AND-joined
predicate over status, setor and the shared case-insensitive search
parameter. -/
theorem c5_count_matches_list (db : DB) (f : Filters)
    (ord : Solicitacao → Solicitacao → Prop) [DecidableRel ord] :
    SolicitacaoModel.count db f =
      (SolicitacaoModel.getAll db f ord none 0).length := by
  rw [count_eq_filter_length]
  unfold SolicitacaoModel.getAll
  rw [List.length_insertionSort]

/-- Witness for C5 at a concrete store, filters and ordering. -/
theorem c5_count_matches_list_witness :
    SolicitacaoModel.count
        ⟨[⟨1, "ANA", "TI", "CC1", "NOTEBOOK", 0, "Pendente", 0, 0⟩,
          ⟨2, "BIA", "RH", "CC2", "MONITOR", 0, "Comprado", 0, 0⟩], 3⟩
        { search := some "note" } =
      (SolicitacaoModel.getAll
        ⟨[⟨1, "ANA", "TI", "CC1", "NOTEBOOK", 0, "Pendente", 0, 0⟩,
          ⟨2, "BIA", "RH", "CC2", "MONITOR", 0, "Comprado", 0, 0⟩], 3⟩
        { search := some "note" } (fun a b => a.id ≤ b.id) none 0).length :=
  c5_count_matches_list _ _ _

/-! ### The status-only update wrapper -/

/-- A non-empty update on a present id succeeds with the mapped rows. -/
theorem update_ok_of_present (db : DB) (id : Nat) (d : UpdateData)
    (now : Int) (hd : definedFieldCount d ≠ 0)
    (h : (db.rows.filter (fun r => r.id == id)).length > 0) :
    SolicitacaoModel.update db id d now =
      .ok { db with rows := db.rows.map (fun r => if r.id == id then applyUpdateFields r d now else r) } := by
  unfold SolicitacaoModel.update
  rw [if_neg hd, if_pos h]

/-- A non-empty update on an absent id throws the wrapped not-found
error, which carries no code and no statusCode. -/
theorem update_error_of_absent (db : DB) (id : Nat) (d : UpdateData)
    (now : Int) (hd : definedFieldCount d ≠ 0)
    (h : ¬(db.rows.filter (fun r => r.id == id)).length > 0) :
    SolicitacaoModel.update db id d now = .error { message :=
      "Erro ao atualizar solicitação: Solicitação não encontrada ou nenhuma alteração foi feita" } := by
  unfold SolicitacaoModel.update
  rw [if_neg hd, if_neg h]

/-- C9: updateStatus is definitionally update with a payload defining
only status, so it has the same success result and the same error
outcomes; on success the store changes only at the targeted id, and only
in the status and updated_at fields. -/
theorem c9_updateStatus_is_update (db : DB) (id : Nat) (st : String)
    (now : Int) :
    SolicitacaoModel.updateStatus db id st now =
      SolicitacaoModel.update db id { status := some st } now ∧
    ∀ db2, SolicitacaoModel.updateStatus db id st now = .ok db2 →
      db2.rows = db.rows.map (fun r =>
        if r.id == id then { r with status := st, updated_at := now }
        else r) ∧
      db2.nextId = db.nextId := by
  refine ⟨rfl, ?_⟩
  intro db2 h
  unfold SolicitacaoModel.updateStatus at h
  have hd : definedFieldCount { status := some st : UpdateData } ≠ 0 := by
    simp [definedFieldCount]
  by_cases hp : (db.rows.filter (fun r => r.id == id)).length > 0
  · rw [update_ok_of_present db id { status := some st } now hd hp] at h
    cases h
    exact ⟨rfl, rfl⟩
  · rw [update_error_of_absent db id { status := some st } now hd hp] at h
    cases h

/-- Witness for C9 at a concrete store holding the targeted row. -/
theorem c9_updateStatus_is_update_witness :
    SolicitacaoModel.updateStatus
        ⟨[⟨1, "ANA", "TI", "CC1", "NOTEBOOK", 0, "Pendente", 0, 0⟩], 2⟩
        1 "Comprado" 7 =
      SolicitacaoModel.update
        ⟨[⟨1, "ANA", "TI", "CC1", "NOTEBOOK", 0, "Pendente", 0, 0⟩], 2⟩
        1 { status := some "Comprado" } 7 ∧
    ([⟨1, "ANA", "TI", "CC1", "NOTEBOOK", 0, "Comprado", 0, 7⟩] :
        List Solicitacao) =
      ([⟨1, "ANA", "TI", "CC1", "NOTEBOOK", 0, "Pendente", 0, 0⟩] :
        List Solicitacao).map (fun r =>
          if r.id == 1 then { r with status := "Comprado", updated_at := 7 }
          else r) := by
  have h := c9_updateStatus_is_update
    ⟨[⟨1, "ANA", "TI", "CC1", "NOTEBOOK", 0, "Pendente", 0, 0⟩], 2⟩
    1 "Comprado" 7
  refine ⟨h.1, ?_⟩
  have h2 := h.2 ⟨[⟨1, "ANA", "TI", "CC1", "NOTEBOOK", 0, "Comprado", 0, 7⟩], 2⟩
    rfl
  exact h2.1

/-! ### Zero affected rows on the mutating statement -/

/-- A delete on an absent id throws its generic error, which carries no
code and no statusCode. -/
theorem delete_error_of_absent (db : DB) (id : Nat)
    (h : ¬(db.rows.filter (fun r => r.id == id)).length > 0) :
    SolicitacaoModel.delete db id =
      .error { message := "Erro ao excluir solicitação do banco de dados" } := by
  unfold SolicitacaoModel.delete
  rw [if_neg h]

/-- C2 counterexample.  The row with id 1 exists at the pre-check
snapshot but has been deleted by the time the UPDATE statement runs (the
race window of the specification).  The claim says the client then
receives 404; the model of the code produces a generic 500 for both the
update and the delete handler, because the repository throws a plain
Error without a statusCode and the error middleware falls back to 500. -/
theorem c2_counterexample :
    (SolicitacaoController.update
        ⟨[⟨1, "ANA", "TI", "CC1", "NOTEBOOK", 0, "Pendente", 0, 0⟩], 2⟩
        ⟨[], 2⟩ 1 { status := some "Comprado" } 7).status = 500 ∧
    (SolicitacaoController.update
        ⟨[⟨1, "ANA", "TI", "CC1", "NOTEBOOK", 0, "Pendente", 0, 0⟩], 2⟩
        ⟨[], 2⟩ 1 { status := some "Comprado" } 7).status ≠ 404 ∧
    (SolicitacaoController.delete
        ⟨[⟨1, "ANA", "TI", "CC1", "NOTEBOOK", 0, "Pendente", 0, 0⟩], 2⟩
        ⟨[], 2⟩ 1).status = 500 ∧
    (SolicitacaoController.delete
        ⟨[⟨1, "ANA", "TI", "CC1", "NOTEBOOK", 0, "Pendente", 0, 0⟩], 2⟩
        ⟨[], 2⟩ 1).status ≠ 404 := by
  refine ⟨rfl, by decide, rfl, by decide⟩

/-- C2 amended: when a well-formed update or delete statement affects
zero rows, the repository never reports success: it throws an error.
But the error is a plain object without a statusCode, so the error
middleware maps it to a generic 500, not to 404. -/
theorem c2_zero_rows_update_delete (db : DB) (id : Nat) (d : UpdateData)
    (now : Int) (hd : definedFieldCount d ≠ 0)
    (habs : ∀ r ∈ db.rows, r.id ≠ id) :
    (∃ e, SolicitacaoModel.update db id d now = .error e ∧
      e.statusCode = none ∧ errorHandlerStatus e = 500) ∧
    (∃ e, SolicitacaoModel.delete db id = .error e ∧
      e.statusCode = none ∧ errorHandlerStatus e = 500) := by
  have hfilter : (db.rows.filter (fun r => r.id == id)).length = 0 := by
    rw [List.length_eq_zero, List.filter_eq_nil_iff]
    intro r hr
    simpa using habs r hr
  have hnot : ¬(db.rows.filter (fun r => r.id == id)).length > 0 := by
    omega
  constructor
  · exact ⟨_, update_error_of_absent db id d now hd hnot, rfl, rfl⟩
  · exact ⟨_, delete_error_of_absent db id hnot, rfl, rfl⟩

/-- Witness for the amended C2 at the empty store. -/
theorem c2_zero_rows_update_delete_witness :
    (∃ e, SolicitacaoModel.update ⟨[], 1⟩ 1
        { status := some "Comprado" } 7 = .error e ∧
      e.statusCode = none ∧ errorHandlerStatus e = 500) ∧
    (∃ e, SolicitacaoModel.delete ⟨[], 1⟩ 1 = .error e ∧
      e.statusCode = none ∧ errorHandlerStatus e = 500) :=
  c2_zero_rows_update_delete ⟨[], 1⟩ 1 { status := some "Comprado" } 7
    (by decide) (by simp)

/-! ### Create validation lists every missing field -/

/-- How many of the four required fields are missing. -/
def missingCount (d : VData) : Nat :=
  (if fieldMissing d.nome_pessoa then 1 else 0) +
  (if fieldMissing d.setor then 1 else 0) +
  (if fieldMissing d.centro_custo then 1 else 0) +
  (if fieldMissing d.equipamento then 1 else 0)

/-- The required-field messages, one per missing field, in source
order. -/
def missingMsgs (d : VData) : List String :=
  (if fieldMissing d.nome_pessoa then
    ["O campo \x27nome_pessoa\x27 é obrigatório"] else []) ++
  (if fieldMissing d.setor then
    ["O campo \x27setor\x27 é obrigatório"] else []) ++
  (if fieldMissing d.centro_custo then
    ["O campo \x27centro_custo\x27 é obrigatório"] else []) ++
  (if fieldMissing d.equipamento then
    ["O campo \x27equipamento\x27 é obrigatório"] else [])

/-- Length of a one-message conditional block. -/
theorem length_msg_if (b : Bool) (m : String) :
    (if b then [m] else ([] : List String)).length =
      if b then 1 else 0 := by
  cases b <;> rfl

/-- C3: on a create payload whose only defects are missing required
fields (the supplied fields are within their length bounds and any
status is valid), validation returns exactly one message per missing
field, and the handler answers 400 carrying that full list. -/
theorem c3_create_lists_every_missing_field (db : DB) (body : Body)
    (now : Int) (d : VData) (hd : d = toVData (processBody body))
    (hstatus : optTruthy d.status →
      statusValidos.contains (d.status.getD ""))
    (hlen1 : (d.nome_pessoa.getD "").length ≤ 255)
    (hlen2 : (d.setor.getD "").length ≤ 100)
    (hlen3 : (d.centro_custo.getD "").length ≤ 50) :
    SolicitacaoModel.validateData d false = missingMsgs d ∧
    (SolicitacaoModel.validateData d false).length = missingCount d ∧
    (0 < missingCount d →
      SolicitacaoController.create db body now =
        ({ status := 400, errors := missingMsgs d, idOut := none }, db)) := by
  subst hd
  have hstatusb : (optTruthy (toVData (processBody body)).status &&
      !(statusValidos.contains
        ((toVData (processBody body)).status.getD ""))) = false := by
    cases ht : optTruthy (toVData (processBody body)).status
    · rfl
    · rw [hstatus ht]
      rfl
  have hl1 : (optTruthy (toVData (processBody body)).nome_pessoa &&
      decide (((toVData (processBody body)).nome_pessoa.getD "").length > 255))
      = false := by
    have h : ¬(((toVData (processBody body)).nome_pessoa.getD "").length >
        255) := by omega
    simp [h]
  have hl2 : (optTruthy (toVData (processBody body)).setor &&
      decide (((toVData (processBody body)).setor.getD "").length > 100))
      = false := by
    have h : ¬(((toVData (processBody body)).setor.getD "").length > 100) := by
      omega
    simp [h]
  have hl3 : (optTruthy (toVData (processBody body)).centro_custo &&
      decide (((toVData (processBody body)).centro_custo.getD "").length > 50))
      = false := by
    have h : ¬(((toVData (processBody body)).centro_custo.getD "").length >
        50) := by omega
    simp [h]
  have hmain : SolicitacaoModel.validateData (toVData (processBody body))
      false = missingMsgs (toVData (processBody body)) := by
    unfold SolicitacaoModel.validateData missingMsgs
    rw [hstatusb, hl1, hl2, hl3]
    simp
  have hlen : (SolicitacaoModel.validateData (toVData (processBody body))
      false).length = missingCount (toVData (processBody body)) := by
    rw [hmain]
    unfold missingMsgs missingCount
    simp only [List.length_append, length_msg_if]
  refine ⟨hmain, hlen, ?_⟩
  intro hpos
  have hlen2 : (missingMsgs (toVData (processBody body))).length =
      missingCount (toVData (processBody body)) := by
    rw [← hmain]
    exact hlen
  simp only [SolicitacaoController.create]
  rw [hmain, if_pos (by rw [hlen2]; exact hpos)]

/-- Witness for C3: omitting both setor and equipamento yields exactly
the two corresponding messages and a 400 carrying both. -/
theorem c3_create_lists_every_missing_field_witness :
    missingCount (toVData (processBody
      { nome_pessoa := some "Ana", centro_custo := some "CC1" })) = 2 ∧
    SolicitacaoModel.validateData (toVData (processBody
      { nome_pessoa := some "Ana", centro_custo := some "CC1" })) false =
      ["O campo \x27setor\x27 é obrigatório",
       "O campo \x27equipamento\x27 é obrigatório"] ∧
    SolicitacaoController.create ⟨[], 1⟩
      { nome_pessoa := some "Ana", centro_custo := some "CC1" } 0 =
      ({ status := 400,
         errors := ["O campo \x27setor\x27 é obrigatório",
                    "O campo \x27equipamento\x27 é obrigatório"],
         idOut := none }, ⟨[], 1⟩) := by
  have h := c3_create_lists_every_missing_field ⟨[], 1⟩
    { nome_pessoa := some "Ana", centro_custo := some "CC1" } 0
    (toVData (processBody
      { nome_pessoa := some "Ana", centro_custo := some "CC1" }))
    rfl (by decide) (by decide) (by decide) (by decide)
  refine ⟨by decide, ?_, ?_⟩
  · rw [h.1]
    decide
  · rw [h.2.2 (by decide)]
    decide

/-! ### List pagination -/

/-- Modelled from the claim wording for the refinement comparison of C1:
the requested limit clamped into the range 1 to 100, defaulting to 10
when absent or non-numeric. -/
def specClampedLimit (limit : Option Int) : Nat :=
  match limit with
  | some n => (min 100 (max 1 n)).toNat
  | none => 10

/-- C1 counterexample: for a requested limit of 0 the handler does not
clamp into the range (which would give 1): the falsy 0 takes the default
branch and the effective limit is 10. -/
theorem c1_counterexample :
    SolicitacaoController.itemsPerPageOf (some 0) = 10 ∧
    specClampedLimit (some 0) = 1 ∧
    SolicitacaoController.itemsPerPageOf (some 0) ≠
      specClampedLimit (some 0) := by
  decide

/-- The handler total-pages arithmetic is the real ceiling of the
division. -/
theorem jsCeilDiv_eq_ceil (t l : Nat) (hl : 1 ≤ l) :
    jsCeilDiv t l = ⌈(t : ℚ) / (l : ℚ)⌉₊ := by
  have hl0 : (0 : ℚ) < l := by exact_mod_cast hl
  have key : ∀ c : ℕ, jsCeilDiv t l ≤ c ↔ ⌈(t : ℚ) / (l : ℚ)⌉₊ ≤ c := by
    intro c
    rw [Nat.ceil_le, div_le_iff₀ hl0,
      show jsCeilDiv t l = t ⌈/⌉ l from
        (Nat.ceilDiv_eq_add_pred_div t l).symm,
      ceilDiv_le_iff_le_mul (Nat.lt_of_lt_of_le Nat.zero_lt_one hl)]
    rw [mul_comm]
    exact_mod_cast Iff.rfl
  exact Nat.le_antisymm ((key _).mpr le_rfl) ((key _).mp le_rfl)

/-- C1 amended: the effective page is max(1, requested page, default 1
when absent or non-numeric); the effective limit is 10 when absent,
non-numeric or 0, and otherwise the requested value clamped into 1..100,
so it always lies in 1..100; the offset is (page-1)*limit; and the list
response reports current_page, total_pages = ceil(total_items/limit),
total_items, items_per_page, has_previous = (page>1) and
has_next = (page < total_pages). -/
theorem c1_pagination (page limit : Option Int) (db : DB)
    (search status setor : Option String)
    (ord : Solicitacao → Solicitacao → Prop) [DecidableRel ord] :
    SolicitacaoController.currentPageOf page = (max 1 (page.getD 1)).toNat ∧
    (limit = none → SolicitacaoController.itemsPerPageOf limit = 10) ∧
    (limit = some 0 → SolicitacaoController.itemsPerPageOf limit = 10) ∧
    (∀ n : Int, n ≠ 0 → SolicitacaoController.itemsPerPageOf (some n) =
      (min 100 (max 1 n)).toNat) ∧
    (1 ≤ SolicitacaoController.itemsPerPageOf limit ∧
      SolicitacaoController.itemsPerPageOf limit ≤ 100) ∧
    SolicitacaoController.offsetOf page limit =
      (SolicitacaoController.currentPageOf page - 1) *
        SolicitacaoController.itemsPerPageOf limit ∧
    jsCeilDiv (SolicitacaoModel.count db
        (SolicitacaoController.mkFilters search status setor))
      (SolicitacaoController.itemsPerPageOf limit) =
      ⌈(SolicitacaoModel.count db
          (SolicitacaoController.mkFilters search status setor) : ℚ) /
        (SolicitacaoController.itemsPerPageOf limit : ℚ)⌉₊ ∧
    (SolicitacaoController.getAll db search status setor page limit
        ord).pagination =
      { current_page := SolicitacaoController.currentPageOf page
        total_pages := jsCeilDiv (SolicitacaoModel.count db
            (SolicitacaoController.mkFilters search status setor))
          (SolicitacaoController.itemsPerPageOf limit)
        total_items := SolicitacaoModel.count db
          (SolicitacaoController.mkFilters search status setor)
        items_per_page := SolicitacaoController.itemsPerPageOf limit
        has_previous :=
          decide (SolicitacaoController.currentPageOf page > 1)
        has_next := decide (SolicitacaoController.currentPageOf page <
          jsCeilDiv (SolicitacaoModel.count db
              (SolicitacaoController.mkFilters search status setor))
            (SolicitacaoController.itemsPerPageOf limit)) } := by
  have hbounds : 1 ≤ SolicitacaoController.itemsPerPageOf limit ∧
      SolicitacaoController.itemsPerPageOf limit ≤ 100 := by
    unfold SolicitacaoController.itemsPerPageOf
    constructor
    · have h1 : (1 : Int) ≤ min 100 (max 1 (jsOrInt limit 10)) := by
        have := le_max_left (1 : Int) (jsOrInt limit 10)
        omega
      omega
    · have h2 : min 100 (max 1 (jsOrInt limit 10)) ≤ (100 : Int) :=
        min_le_left _ _
      omega
  refine ⟨?_, ?_, ?_, ?_, hbounds, rfl, jsCeilDiv_eq_ceil _ _ hbounds.1, rfl⟩
  · cases page with
    | none => rfl
    | some n =>
      by_cases hn : n = 0
      · subst hn; decide
      · unfold SolicitacaoController.currentPageOf
        simp [jsOrInt, hn]
  · intro h; subst h; rfl
  · intro h; subst h; rfl
  · intro n hn
    unfold SolicitacaoController.itemsPerPageOf
    simp [jsOrInt, hn]

/-- Witness for C1 amended at concrete query parameters and a one-row
store. -/
theorem c1_pagination_witness :
    SolicitacaoController.currentPageOf (some 3) =
      (max 1 ((some (3 : Int)).getD 1)).toNat ∧
    SolicitacaoController.itemsPerPageOf (some 0) = 10 ∧
    SolicitacaoController.itemsPerPageOf (some 250) = (min 100 (max 1 (250 : Int))).toNat ∧
    SolicitacaoController.offsetOf (some 3) (some 7) =
      (SolicitacaoController.currentPageOf (some 3) - 1) *
        SolicitacaoController.itemsPerPageOf (some 7) := by
  have h1 := c1_pagination (some 3) (some 7)
    ⟨[⟨1, "ANA", "TI", "CC1", "NOTEBOOK", 0, "Pendente", 0, 0⟩], 2⟩
    none none none (fun a b => a.id ≤ b.id)
  have h2 := c1_pagination (some 3) (some 0)
    ⟨[⟨1, "ANA", "TI", "CC1", "NOTEBOOK", 0, "Pendente", 0, 0⟩], 2⟩
    none none none (fun a b => a.id ≤ b.id)
  exact ⟨h1.1, h2.2.2.1 rfl, h1.2.2.2.1 250 (by decide),
    h1.2.2.2.2.2.1⟩

/-- The effective limit is always at least one. -/
theorem itemsPerPageOf_pos (limit : Option Int) :
    1 ≤ SolicitacaoController.itemsPerPageOf limit := by
  unfold SolicitacaoController.itemsPerPageOf
  have h1 : (1 : Int) ≤ min 100 (max 1 (jsOrInt limit 10)) := by
    have := le_max_left (1 : Int) (jsOrInt limit 10)
    omega
  omega

/-- C7: a list request whose page lies beyond the last page still
produces the 200 success envelope, with an empty item list and the
correct total count for the filters. -/
theorem c7_page_beyond_last (db : DB) (search status setor : Option String)
    (page limit : Option Int)
    (ord : Solicitacao → Solicitacao → Prop) [DecidableRel ord]
    (h : jsCeilDiv (SolicitacaoModel.count db
        (SolicitacaoController.mkFilters search status setor))
      (SolicitacaoController.itemsPerPageOf limit) <
      SolicitacaoController.currentPageOf page) :
    (SolicitacaoController.getAll db search status setor page limit
      ord).status = 200 ∧
    (SolicitacaoController.getAll db search status setor page limit
      ord).solicitacoes = [] ∧
    (SolicitacaoController.getAll db search status setor page limit
      ord).pagination.total_items = SolicitacaoModel.count db
        (SolicitacaoController.mkFilters search status setor) := by
  refine ⟨rfl, ?_, rfl⟩
  show SolicitacaoModel.getAll db
    (SolicitacaoController.mkFilters search status setor) ord
    (some (SolicitacaoController.itemsPerPageOf limit))
    (SolicitacaoController.offsetOf page limit) = []
  have hl := itemsPerPageOf_pos limit
  have hip : SolicitacaoController.itemsPerPageOf limit ≠ 0 := by omega
  unfold SolicitacaoModel.getAll
  simp only [hip, ne_eq, not_false_eq_true, if_true]
  rw [List.drop_eq_nil_of_le, List.take_nil]
  rw [List.length_insertionSort]
  have hcnt : (db.rows.filter (rowMatches (getAllCondList
      (SolicitacaoController.mkFilters search status setor)))).length =
      SolicitacaoModel.count db
        (SolicitacaoController.mkFilters search status setor) :=
    (count_eq_filter_length db _).symm
  rw [hcnt]
  have h1 : SolicitacaoModel.count db
      (SolicitacaoController.mkFilters search status setor) ≤
      SolicitacaoController.itemsPerPageOf limit *
        jsCeilDiv (SolicitacaoModel.count db
          (SolicitacaoController.mkFilters search status setor))
        (SolicitacaoController.itemsPerPageOf limit) := by
    rw [show jsCeilDiv (SolicitacaoModel.count db
        (SolicitacaoController.mkFilters search status setor))
        (SolicitacaoController.itemsPerPageOf limit) =
        SolicitacaoModel.count db
          (SolicitacaoController.mkFilters search status setor) ⌈/⌉
          SolicitacaoController.itemsPerPageOf limit from
      (Nat.ceilDiv_eq_add_pred_div _ _).symm]
    exact (ceilDiv_le_iff_le_mul (by omega)).mp le_rfl
  have h2 : jsCeilDiv (SolicitacaoModel.count db
      (SolicitacaoController.mkFilters search status setor))
      (SolicitacaoController.itemsPerPageOf limit) ≤
      SolicitacaoController.currentPageOf page - 1 := by omega
  have h3 : SolicitacaoController.itemsPerPageOf limit *
      (SolicitacaoController.currentPageOf page - 1) =
      SolicitacaoController.offsetOf page limit := by
    unfold SolicitacaoController.offsetOf
    exact Nat.mul_comm _ _
  rw [← h3]
  exact le_trans h1 (Nat.mul_le_mul_left _ h2)

/-- Witness for C7: page 5 of a one-row store. -/
theorem c7_page_beyond_last_witness :
    (SolicitacaoController.getAll
      ⟨[⟨1, "ANA", "TI", "CC1", "NOTEBOOK", 0, "Pendente", 0, 0⟩], 2⟩
      none none none (some 5) (some 10) (fun a b => a.id ≤ b.id)).status =
      200 ∧
    (SolicitacaoController.getAll
      ⟨[⟨1, "ANA", "TI", "CC1", "NOTEBOOK", 0, "Pendente", 0, 0⟩], 2⟩
      none none none (some 5) (some 10)
      (fun a b => a.id ≤ b.id)).solicitacoes = [] ∧
    (SolicitacaoController.getAll
      ⟨[⟨1, "ANA", "TI", "CC1", "NOTEBOOK", 0, "Pendente", 0, 0⟩], 2⟩
      none none none (some 5) (some 10)
      (fun a b => a.id ≤ b.id)).pagination.total_items =
      SolicitacaoModel.count
        ⟨[⟨1, "ANA", "TI", "CC1", "NOTEBOOK", 0, "Pendente", 0, 0⟩], 2⟩
        (SolicitacaoController.mkFilters none none none) :=
  c7_page_beyond_last _ _ _ _ _ _ _ (by decide)

/-! ### The raw ORDER BY clause -/

/-- C8: the getAll SQL text is the filter prefix, then the ORDER BY
keyword, then the caller-supplied raw orderBy string concatenated
verbatim, then the LIMIT/OFFSET placeholders; the bound parameter list
never depends on the orderBy argument; the handler defaults an omitted
orderBy to data_solicitacao DESC; and the count SQL carries no ORDER BY
clause at all. -/
theorem c8_raw_order_by (f : Filters) (orderBy : String)
    (limit : Option Nat) (offset : Nat) :
    (SolicitacaoModel.getAllQuery f orderBy limit offset).1 =
      getAllSqlBeforeOrder f ++ " ORDER BY " ++ orderBy ++
        getAllSqlAfterOrder f limit ∧
    (SolicitacaoModel.getAllQuery f orderBy limit offset).2 =
      getAllParamsOnly f limit offset ∧
    SolicitacaoController.orderByParam none = "data_solicitacao DESC" ∧
    containsSeg ("ORDER BY").data
      ((SolicitacaoModel.countQuery f).1).data = false := by
  refine ⟨?_, ?_, rfl, ?_⟩
  · unfold SolicitacaoModel.getAllQuery getAllSqlBeforeOrder
      getAllSqlAfterOrder
    cases limit with
    | none =>
      dsimp only
      rw [String.append_empty]
    | some l =>
      by_cases hl : l ≠ 0
      · dsimp only
        rw [if_pos hl, if_pos hl]
        simp only [String.append_assoc]
      · dsimp only
        rw [if_neg hl, if_neg hl]
        rw [String.append_empty]
  · unfold SolicitacaoModel.getAllQuery getAllParamsOnly
    cases limit with
    | none => rfl
    | some l =>
      by_cases hl : l ≠ 0
      · dsimp only
        rw [if_pos hl, if_pos hl]
      · dsimp only
        rw [if_neg hl, if_neg hl]
  · by_cases h1 : optTruthy f.status <;> by_cases h2 : optTruthy f.setor <;>
      by_cases h3 : optTruthy f.search <;>
      simp [SolicitacaoModel.countQuery, buildCountConds, h1, h2, h3] <;>
      decide

/-- Witness for C8 at concrete filters and a malicious orderBy string. -/
theorem c8_raw_order_by_witness :
    (SolicitacaoModel.getAllQuery { status := some "Pendente" }
      "id; DROP TABLE solicitacoes" (some 10) 0).1 =
      getAllSqlBeforeOrder { status := some "Pendente" } ++ " ORDER BY " ++
        "id; DROP TABLE solicitacoes" ++
        getAllSqlAfterOrder { status := some "Pendente" } (some 10) ∧
    (SolicitacaoModel.getAllQuery { status := some "Pendente" }
      "id; DROP TABLE solicitacoes" (some 10) 0).2 =
      getAllParamsOnly { status := some "Pendente" } (some 10) 0 ∧
    SolicitacaoController.orderByParam none = "data_solicitacao DESC" ∧
    containsSeg ("ORDER BY").data
      ((SolicitacaoModel.countQuery { status := some "Pendente" }).1).data =
      false :=
  c8_raw_order_by { status := some "Pendente" }
    "id; DROP TABLE solicitacoes" (some 10) 0

/-! ### Create and read back -/

/-- find? skips a block in which no element satisfies the predicate. -/
theorem find?_append_of_none {α : Type} {p : α → Bool} {l1 l2 : List α}
    (h : ∀ x ∈ l1, p x = false) : (l1 ++ l2).find? p = l2.find? p := by
  induction l1 with
  | nil => rfl
  | cons a t ih =>
    rw [List.cons_append, List.find?_cons_of_neg, ih]
    · intro x hx
      exact h x (List.mem_cons_of_mem a hx)
    · rw [h a (List.mem_cons_self a t)]
      exact Bool.false_ne_true

/-- The normalized form of a string is already trimmed. -/
theorem jsTrim_normalizeString (x : String) :
    jsTrim (normalizeString x) = normalizeString x := by
  show String.mk (jsTrimL ((jsTrimL x.data).map jsToUpperChar)) = _
  rw [jsTrimL_map jsToUpperChar isJsSpace_jsToUpperChar, jsTrimL_idem]
  rfl

/-- A survived required field of the create pipeline is exactly the
normalized sanitized input. -/
theorem processed_field_eq {o : Option String}
    (h : fieldMissing (normalizeIfTruthy (o.map sanitizeInput)) = false) :
    normalizeIfTruthy (o.map sanitizeInput) =
      some (normalizeString (sanitizeInput (o.getD ""))) := by
  cases o with
  | none => simp [fieldMissing, normalizeIfTruthy] at h
  | some s =>
    by_cases he : sanitizeInput s == ""
    · exfalso
      rw [show (some s).map sanitizeInput = some (sanitizeInput s) from rfl,
        normalizeIfTruthy, if_pos he, fieldMissing] at h
      rw [he] at h
      simp at h
    · rw [show (some s).map sanitizeInput = some (sanitizeInput s) from rfl,
        normalizeIfTruthy, if_neg he]
      rfl

/-- C4: a valid create payload produces a 201 with a positive id, and a
getById on that id returns a row whose four text fields are exactly the
inputs passed through sanitizeInput (angle brackets stripped) and then
normalizeString (upper-cased, trimmed). -/
theorem c4_create_getById_roundtrip (db : DB) (body : Body) (now : Int)
    (hnext : 1 ≤ db.nextId)
    (hfresh : ∀ r ∈ db.rows, r.id ≠ db.nextId)
    (hvalid : SolicitacaoModel.validateData (toVData (processBody body))
      false = []) :
    ∃ id db2,
      SolicitacaoController.create db body now =
        ({ status := 201, errors := [], idOut := some id }, db2) ∧
      1 ≤ id ∧
      ∃ row, SolicitacaoModel.getById db2 id = some row ∧
        row.nome_pessoa =
          normalizeString (sanitizeInput (body.nome_pessoa.getD "")) ∧
        row.setor = normalizeString (sanitizeInput (body.setor.getD "")) ∧
        row.centro_custo =
          normalizeString (sanitizeInput (body.centro_custo.getD "")) ∧
        row.equipamento =
          normalizeString (sanitizeInput (body.equipamento.getD "")) := by
  have hm1 : fieldMissing (toVData (processBody body)).nome_pessoa = false := by
    by_contra hc
    rw [Bool.not_eq_false] at hc
    rw [SolicitacaoModel.validateData] at hvalid
    simp [hc] at hvalid
  have hm2 : fieldMissing (toVData (processBody body)).setor = false := by
    by_contra hc
    rw [Bool.not_eq_false] at hc
    rw [SolicitacaoModel.validateData] at hvalid
    simp [hc] at hvalid
  have hm3 : fieldMissing (toVData (processBody body)).centro_custo
      = false := by
    by_contra hc
    rw [Bool.not_eq_false] at hc
    rw [SolicitacaoModel.validateData] at hvalid
    simp [hc] at hvalid
  have hm4 : fieldMissing (toVData (processBody body)).equipamento
      = false := by
    by_contra hc
    rw [Bool.not_eq_false] at hc
    rw [SolicitacaoModel.validateData] at hvalid
    simp [hc] at hvalid
  have hf1 : (processBody body).nome_pessoa =
      some (normalizeString (sanitizeInput (body.nome_pessoa.getD ""))) :=
    processed_field_eq hm1
  have hf2 : (processBody body).setor =
      some (normalizeString (sanitizeInput (body.setor.getD ""))) :=
    processed_field_eq hm2
  have hf3 : (processBody body).centro_custo =
      some (normalizeString (sanitizeInput (body.centro_custo.getD ""))) :=
    processed_field_eq hm3
  have hf4 : (processBody body).equipamento =
      some (normalizeString (sanitizeInput (body.equipamento.getD ""))) :=
    processed_field_eq hm4
  have hm1b : fieldMissing (processBody body).nome_pessoa = false := hm1
  have hm2b : fieldMissing (processBody body).setor = false := hm2
  have hm3b : fieldMissing (processBody body).centro_custo = false := hm3
  have hm4b : fieldMissing (processBody body).equipamento = false := hm4
  have hcreate : SolicitacaoModel.create db (processBody body) now =
      .ok (db.nextId,
        ⟨db.rows ++
          [⟨db.nextId,
            jsTrim ((processBody body).nome_pessoa.getD ""),
            jsTrim ((processBody body).setor.getD ""),
            jsTrim ((processBody body).centro_custo.getD ""),
            jsTrim ((processBody body).equipamento.getD ""),
            (processBody body).data_solicitacao.getD now,
            jsOrStr (processBody body).status "Pendente",
            now, now⟩],
          db.nextId + 1⟩) := by
    rw [SolicitacaoModel.create]
    simp only [hm1b, hm2b, hm3b, hm4b, Bool.false_eq_true, if_false]
  have hcontroller : SolicitacaoController.create db body now =
      ({ status := 201, errors := [], idOut := some db.nextId },
        ⟨db.rows ++
          [⟨db.nextId,
            jsTrim ((processBody body).nome_pessoa.getD ""),
            jsTrim ((processBody body).setor.getD ""),
            jsTrim ((processBody body).centro_custo.getD ""),
            jsTrim ((processBody body).equipamento.getD ""),
            (processBody body).data_solicitacao.getD now,
            jsOrStr (processBody body).status "Pendente",
            now, now⟩],
          db.nextId + 1⟩) := by
    simp only [SolicitacaoController.create, hvalid, List.length_nil,
      gt_iff_lt, Nat.lt_irrefl, if_false, hcreate]
  refine ⟨db.nextId,
    ⟨db.rows ++
      [⟨db.nextId,
        jsTrim ((processBody body).nome_pessoa.getD ""),
        jsTrim ((processBody body).setor.getD ""),
        jsTrim ((processBody body).centro_custo.getD ""),
        jsTrim ((processBody body).equipamento.getD ""),
        (processBody body).data_solicitacao.getD now,
        jsOrStr (processBody body).status "Pendente",
        now, now⟩],
      db.nextId + 1⟩, hcontroller, hnext, ?_⟩
  refine ⟨⟨db.nextId,
      jsTrim ((processBody body).nome_pessoa.getD ""),
      jsTrim ((processBody body).setor.getD ""),
      jsTrim ((processBody body).centro_custo.getD ""),
      jsTrim ((processBody body).equipamento.getD ""),
      (processBody body).data_solicitacao.getD now,
      jsOrStr (processBody body).status "Pendente",
      now, now⟩, ?_, ?_, ?_, ?_, ?_⟩
  · simp only [SolicitacaoModel.getById]
    rw [find?_append_of_none]
    · rw [List.find?_cons_of_pos _ (by simp)]
    · intro r hr
      simp [hfresh r hr]
  · show jsTrim ((processBody body).nome_pessoa.getD "") = _
    rw [hf1]
    exact jsTrim_normalizeString _
  · show jsTrim ((processBody body).setor.getD "") = _
    rw [hf2]
    exact jsTrim_normalizeString _
  · show jsTrim ((processBody body).centro_custo.getD "") = _
    rw [hf3]
    exact jsTrim_normalizeString _
  · show jsTrim ((processBody body).equipamento.getD "") = _
    rw [hf4]
    exact jsTrim_normalizeString _

/-- Witness for C4: the round trip of the specification, with
equipamento "Notebook Dell <script>" stored as
"NOTEBOOK DELL SCRIPT". -/
theorem c4_create_getById_roundtrip_witness :
    SolicitacaoController.create ⟨[], 1⟩
      { nome_pessoa := some "  Ana ", setor := some "TI",
        centro_custo := some "CC1",
        equipamento := some "Notebook Dell <script>" } 0 =
      ({ status := 201, errors := [], idOut := some 1 },
        ⟨[⟨1, "ANA", "TI", "CC1", "NOTEBOOK DELL SCRIPT", 0, "Pendente",
          0, 0⟩], 2⟩) ∧
    SolicitacaoModel.getById
      ⟨[⟨1, "ANA", "TI", "CC1", "NOTEBOOK DELL SCRIPT", 0, "Pendente",
        0, 0⟩], 2⟩ 1 =
      some ⟨1, "ANA", "TI", "CC1", "NOTEBOOK DELL SCRIPT", 0, "Pendente",
        0, 0⟩ := by
  have happ := c4_create_getById_roundtrip ⟨[], 1⟩
    { nome_pessoa := some "  Ana ", setor := some "TI",
      centro_custo := some "CC1",
      equipamento := some "Notebook Dell <script>" } 0
    (by decide) (by simp) (by decide)
  obtain ⟨id, db2, h1, h2, row, h3, h4, h5, h6, h7⟩ := happ
  exact ⟨by decide, by decide⟩

/-! ### Status breakdown and percentages -/

/-- Math.round never strays more than one half from its argument. -/
theorem jsMathRound_err (x : ℚ) : |(jsMathRound x : ℚ) - x| ≤ 1 / 2 := by
  unfold jsMathRound
  have h1 := Int.floor_le (x + 1 / 2)
  have h2 := Int.lt_floor_add_one (x + 1 / 2)
  rw [abs_le]
  constructor <;> linarith

/-- The accumulated rounding error over a list of status rows is at most
half a point per row. -/
theorem sum_round_err (t : Nat) (l : List StatRow) :
    |(((l.map (fun st =>
        jsMathRound ((st.quantidade : ℚ) / (t : ℚ) * 100))).sum : ℚ)) -
      (l.map (fun st => (st.quantidade : ℚ) / (t : ℚ) * 100)).sum| ≤
      (l.length : ℚ) / 2 := by
  induction l with
  | nil => simp
  | cons a l ih =>
    simp only [List.map_cons, List.sum_cons, List.length_cons]
    rw [Int.cast_add]
    have herr := jsMathRound_err ((a.quantidade : ℚ) / (t : ℚ) * 100)
    have habs := abs_add
      ((jsMathRound ((a.quantidade : ℚ) / (t : ℚ) * 100) : ℚ) -
        (a.quantidade : ℚ) / (t : ℚ) * 100)
      ((((l.map (fun st =>
          jsMathRound ((st.quantidade : ℚ) / (t : ℚ) * 100))).sum : ℤ) : ℚ) -
        (l.map (fun st => (st.quantidade : ℚ) / (t : ℚ) * 100)).sum)
    have hrw : ((jsMathRound ((a.quantidade : ℚ) / (t : ℚ) * 100) : ℚ) +
        (((l.map (fun st =>
          jsMathRound ((st.quantidade : ℚ) / (t : ℚ) * 100))).sum : ℤ) : ℚ)) -
        ((a.quantidade : ℚ) / (t : ℚ) * 100 +
          (l.map (fun st => (st.quantidade : ℚ) / (t : ℚ) * 100)).sum) =
        ((jsMathRound ((a.quantidade : ℚ) / (t : ℚ) * 100) : ℚ) -
          (a.quantidade : ℚ) / (t : ℚ) * 100) +
        ((((l.map (fun st =>
          jsMathRound ((st.quantidade : ℚ) / (t : ℚ) * 100))).sum : ℤ) : ℚ) -
          (l.map (fun st => (st.quantidade : ℚ) / (t : ℚ) * 100)).sum) := by
      ring
    rw [hrw]
    have hlen : ((l.length + 1 : ℕ) : ℚ) = (l.length : ℚ) + 1 := by
      push_cast
      ring
    rw [hlen]
    calc |((jsMathRound ((a.quantidade : ℚ) / (t : ℚ) * 100) : ℚ) -
          (a.quantidade : ℚ) / (t : ℚ) * 100) +
        ((((l.map (fun st =>
          jsMathRound ((st.quantidade : ℚ) / (t : ℚ) * 100))).sum : ℤ) : ℚ) -
          (l.map (fun st => (st.quantidade : ℚ) / (t : ℚ) * 100)).sum)| ≤ _ :=
        habs
      _ ≤ (1 : ℚ) / 2 + (l.length : ℚ) / 2 := by linarith
      _ = ((l.length : ℚ) + 1) / 2 := by ring

/-- The exact percentages of a list of status rows sum to one hundred
times the quotient of their count sum by the total. -/
theorem sum_exact_pct (t : Nat) (l : List StatRow) :
    (l.map (fun st => (st.quantidade : ℚ) / (t : ℚ) * 100)).sum =
      ((l.map (fun st => st.quantidade)).sum : ℚ) / (t : ℚ) * 100 := by
  induction l with
  | nil => simp
  | cons a l ih =>
    simp only [List.map_cons, List.sum_cons]
    rw [ih]
    ring

/-- C6: the stats query returns one row per distinct status present,
with the right count, ordered descending by count; the handler computes
each percentage as Math.round(count/total*100), reports 0 for every
percentage when the total is 0, and when the total is positive the
percentages sum to 100 up to the accumulated rounding error of half a
point per row. -/
theorem c6_status_breakdown (db : DB) :
    ((SolicitacaoModel.getStats db).map (fun st => st.status)).Nodup ∧
    (∀ s, s ∈ (SolicitacaoModel.getStats db).map (fun st => st.status) ↔
      s ∈ db.rows.map (fun r => r.status)) ∧
    (∀ st ∈ SolicitacaoModel.getStats db, st.quantidade =
      (db.rows.filter (fun r => r.status == st.status)).length) ∧
    (SolicitacaoModel.getStats db).Pairwise
      (fun a b => b.quantidade ≤ a.quantidade) ∧
    (SolicitacaoController.getStats db).1 =
      (SolicitacaoModel.getStats db).map (fun st =>
        { status := st.status
          quantidade := st.quantidade
          percentual := if 0 < (SolicitacaoController.getStats db).2 then
              jsMathRound ((st.quantidade : ℚ) /
                ((SolicitacaoController.getStats db).2 : ℚ) * 100)
            else 0 }) ∧
    ((SolicitacaoController.getStats db).2 = 0 →
      ∀ o ∈ (SolicitacaoController.getStats db).1, o.percentual = 0) ∧
    (0 < (SolicitacaoController.getStats db).2 →
      |(((((SolicitacaoController.getStats db).1.map
          (fun o => o.percentual)).sum : ℤ) : ℚ)) - 100| ≤
        ((SolicitacaoController.getStats db).1.length : ℚ) / 2) := by
  have hperm : (SolicitacaoModel.getStats db).Perm
      (((db.rows.map (fun r => r.status)).dedup).map (fun s =>
        ({ status := s,
           quantidade :=
             (db.rows.filter (fun r => r.status == s)).length } :
          StatRow))) :=
    List.perm_insertionSort statDescOrder _
  have hmapstat : ((((db.rows.map (fun r => r.status)).dedup).map (fun s =>
      ({ status := s,
         quantidade := (db.rows.filter (fun r => r.status == s)).length } :
        StatRow))).map (fun st => st.status)) =
      (db.rows.map (fun r => r.status)).dedup := by
    rw [List.map_map]
    exact List.map_id _
  refine ⟨?_, ?_, ?_, ?_, rfl, ?_, ?_⟩
  · rw [(hperm.map (fun st => st.status)).nodup_iff, hmapstat]
    exact List.nodup_dedup _
  · intro s2
    rw [(hperm.map (fun st => st.status)).mem_iff, hmapstat]
    exact List.mem_dedup
  · intro st hst
    have hmem := hperm.mem_iff.mp hst
    obtain ⟨s2, _, hmk⟩ := List.mem_map.mp hmem
    rw [← hmk]
  · exact List.sorted_insertionSort statDescOrder _
  · intro h0 o ho
    have h0b : (((SolicitacaoModel.getStats db).map
        (fun st => st.quantidade)).sum : ℕ) = 0 := h0
    obtain ⟨st, _, hmk⟩ := List.mem_map.mp ho
    rw [← hmk]
    show (if 0 < (((SolicitacaoModel.getStats db).map
        (fun st => st.quantidade)).sum : ℕ) then _ else 0) = 0
    rw [h0b]
    simp
  · intro hpos
    have hposb : 0 < (((SolicitacaoModel.getStats db).map
        (fun st => st.quantidade)).sum : ℕ) := hpos
    have hmap : (SolicitacaoController.getStats db).1.map
        (fun o => o.percentual) =
        (SolicitacaoModel.getStats db).map (fun st =>
          jsMathRound ((st.quantidade : ℚ) /
            (((((SolicitacaoModel.getStats db).map
              (fun st => st.quantidade)).sum : ℕ)) : ℚ) * 100)) := by
      show ((SolicitacaoModel.getStats db).map _).map _ = _
      rw [List.map_map]
      refine List.map_congr_left ?_
      intro st _
      simp only [Function.comp]
      rw [if_pos hposb]
    have hlen : ((SolicitacaoController.getStats db).1.length : ℚ) =
        ((SolicitacaoModel.getStats db).length : ℚ) := by
      show (((SolicitacaoModel.getStats db).map _).length : ℚ) = _
      rw [List.length_map]
    rw [hmap, hlen]
    have hround := sum_round_err
      ((((SolicitacaoModel.getStats db).map (fun st => st.quantidade)).sum
        : ℕ))
      (SolicitacaoModel.getStats db)
    have hexact := sum_exact_pct
      ((((SolicitacaoModel.getStats db).map (fun st => st.quantidade)).sum
        : ℕ))
      (SolicitacaoModel.getStats db)
    have htne : (((((SolicitacaoModel.getStats db).map
        (fun st => st.quantidade)).sum : ℕ)) : ℚ) ≠ 0 := by
      exact_mod_cast Nat.pos_iff_ne_zero.mp hposb
    have hb : (((((SolicitacaoModel.getStats db).map
        (fun st => st.quantidade)).sum : ℕ)) : ℚ) =
        ((SolicitacaoModel.getStats db).map
          (fun st => (st.quantidade : ℚ))).sum := by
      push_cast
      rw [List.map_map]
      rfl
    have h100 : (((SolicitacaoModel.getStats db).map
        (fun st => (st.quantidade : ℚ) /
          (((((SolicitacaoModel.getStats db).map
            (fun st => st.quantidade)).sum : ℕ)) : ℚ) * 100)).sum) =
        100 := by
      rw [hexact, ← hb, div_self htne, one_mul]
    rw [h100] at hround
    exact hround

/-- Witness for C6 at a three-row store: two Pendente rows and one
Comprado row. -/
theorem c6_status_breakdown_witness :
    ((SolicitacaoModel.getStats
      ⟨[⟨1, "A", "B", "C", "D", 0, "Pendente", 0, 0⟩,
        ⟨2, "A", "B", "C", "D", 0, "Comprado", 0, 0⟩,
        ⟨3, "A", "B", "C", "D", 0, "Pendente", 0, 0⟩], 4⟩).map
      (fun st => st.status)).Nodup ∧
    |(((((SolicitacaoController.getStats
        ⟨[⟨1, "A", "B", "C", "D", 0, "Pendente", 0, 0⟩,
          ⟨2, "A", "B", "C", "D", 0, "Comprado", 0, 0⟩,
          ⟨3, "A", "B", "C", "D", 0, "Pendente", 0, 0⟩], 4⟩).1.map
        (fun o => o.percentual)).sum : ℤ) : ℚ)) - 100| ≤
      ((SolicitacaoController.getStats
        ⟨[⟨1, "A", "B", "C", "D", 0, "Pendente", 0, 0⟩,
          ⟨2, "A", "B", "C", "D", 0, "Comprado", 0, 0⟩,
          ⟨3, "A", "B", "C", "D", 0, "Pendente", 0, 0⟩], 4⟩).1.length : ℚ)
        / 2 := by
  have h := c6_status_breakdown
    ⟨[⟨1, "A", "B", "C", "D", 0, "Pendente", 0, 0⟩,
      ⟨2, "A", "B", "C", "D", 0, "Comprado", 0, 0⟩,
      ⟨3, "A", "B", "C", "D", 0, "Pendente", 0, 0⟩], 4⟩
  exact ⟨h.1, h.2.2.2.2.2.2 (by decide)⟩

end ControleCompras
